import Mathlib

/-!
# Verification of the TDV (TIBCO Data Virtualization) query-execution adapter

Shallow embedding of `src/server/drivers/tdv/index.js`: connection lifecycle
(`Client.connect` / `Client.disconnect`), the row-limit strategy validator,
the query-rewriting stage, the bounded result materializer inside
`Client.runQuery`, the error normalizers for connect-time and query-time
failures, and the top-level `runQuery` composition.

JavaScript-specific behaviour is made explicit:
* optional / absent values are `Option`;
* JS truthiness of strings (`""` is falsy) and numbers (`0`, `undefined`,
  `NaN` are falsy) is modelled by dedicated helpers;
* `undefined + 1` evaluates to `NaN`, modelled by `JsNum`;
* thrown errors are `Except` results; an error object optionally carries the
  `odbcErrors` array (modelled as the list of its sub-error messages).

External collaborators that are not part of this source file (the `odbc`
package's connect/query/close, the `sql-limiter` package's `limit`, and the
row-cap resolver `resolvePositiveNumber`) enter as function parameters or, for
the row-cap resolver, as a definition modelled from the spec.
-/

namespace Tdv

/-- A JS number that may be `NaN` (arithmetic on `undefined` yields `NaN`). -/
inductive JsNum where
  | nan
  | num (n : Nat)
deriving Repr, DecidableEq

/-- Coercion of a possibly-absent number into JS arithmetic: `undefined`
becomes `NaN`. -/
def jsNumOf : Option Nat → JsNum
  | none => JsNum.nan
  | some n => JsNum.num n

/-- JS `+` on numbers: any `NaN` operand makes the result `NaN`. -/
def jsAdd : JsNum → JsNum → JsNum
  | JsNum.num a, JsNum.num b => JsNum.num (a + b)
  | _, _ => JsNum.nan

/-- JS truthiness of a possibly-absent string: `undefined` and `""` are falsy. -/
def jsStrTruthy : Option String → Bool
  | none => false
  | some s => s != ""

/-- The JS idiom `v ? v : dflt` on a possibly-absent string. -/
def jsOrStr (v : Option String) (dflt : String) : String :=
  if jsStrTruthy v then v.getD "" else dflt

/-- JS string coercion of a possibly-absent string (string concatenation
renders `undefined` as `"undefined"`). -/
def jsStr : Option String → String
  | none => "undefined"
  | some s => s

/-- JS truthiness of a possibly-absent number: `undefined` and `0` are falsy. -/
def jsNumTruthy : Option Nat → Bool
  | none => false
  | some n => n != 0

/-- Tests whether `pat` is an initial run of `l`. -/
def leadsList (pat l : List Char) : Bool :=
  match pat, l with
  | [], _ => true
  | _ :: _, [] => false
  | p :: ps, c :: cs => p == c && leadsList ps cs

/-- Tests whether `pat` occurs contiguously somewhere in `l`. -/
def occursIn (pat : List Char) : List Char → Bool
  | [] => pat.isEmpty
  | c :: cs => leadsList pat (c :: cs) || occursIn pat cs

/-- Embeds `s.includes(pat)` on JS strings: `pat` occurs contiguously in `s`. -/
def strIncludes (s pat : String) : Bool :=
  occursIn pat.data s.data

/-- A thrown JS error: either an `Error` with a message and an optional
`odbcErrors` array (kept as the list of the sub-errors' messages), or the
`TypeError` raised by reading a property of `undefined`. -/
inductive JsError where
  | err (message : String) (odbcErrors : Option (List String))
  | typeErrorUndefined
deriving Repr, DecidableEq

/-- Accessor for the structured `odbcErrors` payload of a thrown error
(`undefined` on the `TypeError`). -/
def JsError.odbcPayload : JsError → Option (List String)
  | JsError.err _ p => p
  | JsError.typeErrorUndefined => none

/-- A result row: a mapping from column name to value. -/
abbrev Row := List (String × String)

/-- The shape an executed statement's driver result can take: an optional
`columns` metadata array plus the rows the driver yields, in order. The
whole result object may also be absent (`Option DriverResult` at use sites). -/
structure DriverResult where
  columns : Option (List String)
  resultRows : List Row
deriving Repr, DecidableEq

/-- The uniform result of `runQuery`: `rows` plus the `incomplete` flag; the
degraded no-column path returns an object without the flag, hence `Option`. -/
structure QueryResult where
  rows : List Row
  incomplete : Option Bool
deriving Repr, DecidableEq

/-- How a caller observes the possibly-absent `incomplete` flag: JS truthiness
(`undefined` reads as false). -/
def QueryResult.incompleteTruthy (r : QueryResult) : Bool :=
  r.incomplete.getD false

/-- Caller-supplied connection parameters (`connection` object). All fields
may be absent; `maxRows` is the global default cap, `maxrows_override` the
per-connection override. -/
structure ConnectionDescriptor where
  host : Option String := none
  port : Option String := none
  domain : Option String := none
  database : Option String := none
  username : Option String := none
  password : Option String := none
  maxrows_override : Option Nat := none
  maxRows : Option Nat := none
deriving Repr, DecidableEq

/-- One positive resolution step of the row-cap resolver. -/
def resolveOne : Option Nat → Option Nat
  | some n => if 0 < n then some n else none
  | none => none

/-- Modelled from the spec: the external row-cap resolver
(`lib/resolve-number`, not under `src/`): "given a per-connection override and
a global default, returns a single positive integer or none" — the first of
the two values that is a positive number wins. -/
def resolvePositiveNumber (override dflt : Option Nat) : Option Nat :=
  match resolveOne override with
  | some n => some n
  | none => resolveOne dflt

/-- The allow-list of limit strategies (`const allowed = ['fetch']`). -/
def allowedStrategies : List String := ["fetch"]

/-- JS `String.prototype.split` with a one-character separator, on the
character list (accumulator holds the current piece reversed). -/
def sepSplit (sep : Char) : List Char → List Char → List (List Char)
  | [], acc => [acc.reverse]
  | c :: cs, acc =>
      if c == sep then acc.reverse :: sepSplit sep cs []
      else sepSplit sep cs (c :: acc)

/-- The whitespace characters JS `trim` strips (the ones relevant here). -/
def isWhiteChar (c : Char) : Bool :=
  c == ' ' || c == '\t' || c == '\n' || c == '\r'

/-- JS `String.prototype.trim` on the character list. -/
def trimChars (l : List Char) : List Char :=
  ((l.dropWhile isWhiteChar).reverse.dropWhile isWhiteChar).reverse

/-- Embeds `cleanAndValidateLimitStrategies`: split the comma-delimited list, trim,
lower-case, drop empties; throw on the first entry not in the allow-list. -/
def cleanAndValidateLimitStrategies (limitStrategies : String) :
    Except JsError (List String) :=
  let strategies :=
    ((sepSplit ',' limitStrategies.data []).map
      (fun s => String.mk ((trimChars s).map Char.toLower))).filter
      (fun s => s != "")
  match strategies.find? (fun s => !(allowedStrategies.contains s)) with
  | some bad =>
      Except.error (JsError.err
        ("Limit strategy \"" ++ bad ++ "\" not allowed. Must be one of " ++
          String.intercalate ", "
            (allowedStrategies.map (fun s => "\"" ++ s ++ "\""))) none)
  | none => Except.ok strategies

/-- The system-catalog path whose presence exempts a query from rewriting. -/
def sysAllColumnsPath : String := "/services/databases/system/ALL_COLUMNS"

/-- Embeds the `checkMaxRows` flag as computed in `Client.runQuery`: `true` unless the query
text contains the introspection catalog path. -/
def checkMaxRowsFor (query : String) : Bool :=
  !(strIncludes query sysAllColumnsPath)

/-- The cap handed to `sqlLimiter.limit`: the JS expression `maxRows + 1`
(`NaN` when no cap resolved). -/
def limiterCap (maxRows : Option Nat) : JsNum :=
  jsAdd (jsNumOf maxRows) (JsNum.num 1)

/-- The query-rewriting stage of `Client.runQuery`: when the query is not
exempt and the strategy list is non-empty, call the limiter (`sqlLimiter.limit`,
an external package, passed in as `limitFn`) with the original query, the
strategies and the cap `maxRows + 1`; otherwise pass the query through. -/
def cleanedQueryFor (limitFn : String → List String → JsNum → String)
    (strategies : List String) (query : String) (maxRows : Option Nat) :
    String :=
  if checkMaxRowsFor query && strategies.length != 0 then
    limitFn query strategies (limiterCap maxRows)
  else
    query

/-- The connect-time error normalizer (`catch` block of `Client.connect`): if
the error carries an `odbcErrors` array, throw a new error made of the first
sub-error's message (reading `.message` of `undefined` when the array is
empty is a `TypeError`); otherwise rethrow unchanged. -/
def connectErrorTransform : JsError → JsError
  | JsError.err _ (some (first :: _)) => JsError.err first none
  | JsError.err _ (some []) => JsError.typeErrorUndefined
  | e => e

/-- The query-time error normalizer (`catch` block of `Client.runQuery`): if
the error carries an `odbcErrors` array, join all sub-error messages with
`"; "` into one new error; otherwise rethrow unchanged. -/
def queryErrorTransform : JsError → JsError
  | JsError.err _ (some msgs) => JsError.err (String.intercalate "; " msgs) none
  | e => e

/-- Embeds `getConnection_string(database, host, port, domain)`: the driver
connection string; the module-global `odbc_driver_path` is the explicit
first parameter `dp`. -/
def getConnection_string (dp database host port domain : String) : String :=
  "Driver=" ++ dp ++ ";host=" ++ host ++ ";port=" ++ port ++
    ";datasource=" ++ database ++ ";domain=" ++ domain

/-- A `Client` instance: the descriptor plus the underlying session handle
(`null` before connect and after disconnect; handles are opaque, numbered). -/
structure Client where
  connection : ConnectionDescriptor
  client : Option Nat := none
deriving Repr, DecidableEq

/-- The connection string `Client.connect` builds before dialing: defaults
`domain ? domain : 'composite'`, `host ? host : 'localhost'`,
`port ? port : 9401`, then `getConnection_string`, then `;Uid=` / `;Pwd=`
appended only when username / password are truthy. -/
def buildConnString (dp : String) (c : ConnectionDescriptor) : String :=
  let domain := jsOrStr c.domain "composite"
  let host := jsOrStr c.host "localhost"
  let port := jsOrStr c.port "9401"
  let cn := getConnection_string dp (jsStr c.database) host port domain
  let cn := if jsStrTruthy c.username then cn ++ ";Uid=" ++ jsStr c.username
            else cn
  if jsStrTruthy c.password then cn ++ ";Pwd=" ++ jsStr c.password else cn

/-- Embeds `Client.connect`: throw `'Client already connected'` when a handle is
already held; otherwise build the connection string and dial via the external
`tdv.connect` (parameter `connectFn`), normalizing a failure through the
connect-time error transform. On failure the handle field stays `null`. -/
def Client.connect (connectFn : String → Except JsError Nat) (dp : String)
    (c : Client) : Except JsError Client :=
  match c.client with
  | some _ => Except.error (JsError.err "Client already connected" none)
  | none =>
      match connectFn (buildConnString dp c.connection) with
      | Except.ok h => Except.ok { c with client := some h }
      | Except.error e => Except.error (connectErrorTransform e)

/-- Embeds `Client.disconnect`: close the handle if present, swallowing any close
failure (it is only logged — returned here as the second component); then
null the handle. Never throws. -/
def Client.disconnect (closeFn : Nat → Except JsError Unit) (c : Client) :
    Client × Option JsError :=
  match c.client with
  | some h =>
      match closeFn h with
      | Except.ok _ => ({ c with client := none }, none)
      | Except.error e => ({ c with client := none }, some e)
  | none => ({ c with client := none }, none)

/-- The result-materializer loop of `Client.runQuery`
(`for (const row of queryResult) ...`): rows are appended in yield order
while `rows.length < maxRows` when the cap check is active and the cap is
truthy; past the cap, `incomplete` is set instead. With the check inactive or
the cap falsy, every row is appended. -/
def materializeLoop (checkMaxRows : Bool) (maxRows : Option Nat) :
    List Row → List Row → Bool → List Row × Bool
  | [], rows, incomplete => (rows, incomplete)
  | r :: rest, rows, incomplete =>
      if checkMaxRows && jsNumTruthy maxRows then
        if rows.length < maxRows.getD 0 then
          materializeLoop checkMaxRows maxRows rest (rows ++ [r]) incomplete
        else
          materializeLoop checkMaxRows maxRows rest rows true
      else
        materializeLoop checkMaxRows maxRows rest (rows ++ [r]) incomplete

/-- Shaping of a successful driver result in `Client.runQuery`: a missing
result object, missing `columns`, or zero columns yields the degraded
`{rows: []}` (no `incomplete` flag); otherwise the materializer loop runs
(guarded once more by `columns.length > 0`, as in the source). -/
def handleQueryResult (checkMaxRows : Bool) (maxRows : Option Nat) :
    Option DriverResult → QueryResult
  | none => { rows := [], incomplete := none }
  | some qr =>
      match qr.columns with
      | none => { rows := [], incomplete := none }
      | some cols =>
          if cols.length == 0 then { rows := [], incomplete := none }
          else
            let ri :=
              if 0 < cols.length then
                materializeLoop checkMaxRows maxRows qr.resultRows [] false
              else ([], false)
            { rows := ri.1, incomplete := some ri.2 }

/-- Embeds `Client.runQuery`: resolve the row cap, validate the hard-coded strategy
list `'fetch'`, rewrite the query unless exempt, execute it on the held
handle via the external `this.client.query` (parameter `qFn`; a `null` handle
makes the property read throw a `TypeError` inside the `try`), then shape the
result; any error from the `try` block goes through the query-time error
normalizer. -/
def Client.runQuery (limitFn : String → List String → JsNum → String)
    (qFn : Nat → String → Except JsError (Option DriverResult))
    (c : Client) (query : String) : Except JsError QueryResult :=
  let maxRows :=
    resolvePositiveNumber c.connection.maxrows_override c.connection.maxRows
  match cleanAndValidateLimitStrategies "fetch" with
  | Except.error e => Except.error e
  | Except.ok strategies =>
      let checkMaxRows := checkMaxRowsFor query
      let cleanedQuery := cleanedQueryFor limitFn strategies query maxRows
      let outcome : Except JsError (Option DriverResult) :=
        match c.client with
        | none => Except.error JsError.typeErrorUndefined
        | some h => qFn h cleanedQuery
      match outcome with
      | Except.error e => Except.error (queryErrorTransform e)
      | Except.ok qres => Except.ok (handleQueryResult checkMaxRows maxRows qres)

/-- The module-level `runQuery(query, connection)`: make a fresh `Client`,
connect (failures propagate with no disconnect), then run the query inside a
`try` whose both exits — returning the result, or rethrowing the error —
first await `client.disconnect()`. Returns the outcome together with the
final `Client` state. -/
def runQueryTop (limitFn : String → List String → JsNum → String)
    (connectFn : String → Except JsError Nat)
    (qFn : Nat → String → Except JsError (Option DriverResult))
    (closeFn : Nat → Except JsError Unit)
    (dp : String) (query : String) (connection : ConnectionDescriptor) :
    Except JsError QueryResult × Client :=
  let client : Client := { connection := connection, client := none }
  match Client.connect connectFn dp client with
  | Except.error e => (Except.error e, client)
  | Except.ok c1 =>
      match Client.runQuery limitFn qFn c1 query with
      | Except.ok result => (Except.ok result, (Client.disconnect closeFn c1).1)
      | Except.error e => (Except.error e, (Client.disconnect closeFn c1).1)

/-! ## Concrete fixtures used by witness and counterexample theorems -/

/-- A concrete limiter standing in for the external `sqlLimiter.limit`. -/
def wLimit : String → List String → JsNum → String :=
  fun q _ cap =>
    match cap with
    | JsNum.num n => q ++ " FETCH FIRST " ++ toString n ++ " ROWS ONLY"
    | JsNum.nan => q ++ " FETCH FIRST NaN ROWS ONLY"

/-- Five one-column rows, in yield order. -/
def wRows : List Row :=
  [[("a", "1")], [("a", "2")], [("a", "3")], [("a", "4")], [("a", "5")]]

/-- A driver handle whose every query yields `wRows` under one column. -/
def wQueryFn : Nat → String → Except JsError (Option DriverResult) :=
  fun _ _ => Except.ok (some { columns := some ["a"], resultRows := wRows })

/-- A descriptor with a per-connection cap of 2. -/
def wConn : ConnectionDescriptor := { maxrows_override := some 2 }

/-- An external connect that always hands out handle 7. -/
def wConnectOk : String → Except JsError Nat := fun _ => Except.ok 7

/-- An external close that succeeds. -/
def wCloseOk : Nat → Except JsError Unit := fun _ => Except.ok ()

/-- An external close that fails. -/
def wCloseBad : Nat → Except JsError Unit :=
  fun _ => Except.error (JsError.err "close failed" none)

/-- An external connect that fails with a structured two-message payload. -/
def wConnectMulti : String → Except JsError Nat :=
  fun _ => Except.error (JsError.err "outer" (some ["auth failed", "retry later"]))

/-- An external connect that fails with a plain error, no payload. -/
def wConnectPlain : String → Except JsError Nat :=
  fun _ => Except.error (JsError.err "plain failure" none)

/-- A driver handle whose query fails with a structured two-message payload. -/
def wQueryMulti : Nat → String → Except JsError (Option DriverResult) :=
  fun _ _ => Except.error (JsError.err "outer" (some ["auth failed", "retry later"]))

/-- A driver handle whose query fails with a plain error, no payload. -/
def wQueryPlain : Nat → String → Except JsError (Option DriverResult) :=
  fun _ _ => Except.error (JsError.err "plain failure" none)

/-- A driver handle whose query yields no result object at all. -/
def wQueryNoCols : Nat → String → Except JsError (Option DriverResult) :=
  fun _ _ => Except.ok none

/-! ## Helper lemmas -/

/-- The value the hard-coded strategy list `'fetch'` validates to. -/
theorem cleanFetch : cleanAndValidateLimitStrategies "fetch" =
    Except.ok ["fetch"] := rfl

/-- Invariant of the materializer loop under an active, positive cap: rows
accumulate in yield order up to the cap, and `incomplete` records whether any
row was discarded. -/
theorem materializeLoop_capped (m : Nat) (hm : 0 < m) :
    ∀ (ys rows : List Row) (inc : Bool), rows.length ≤ m →
    materializeLoop true (some m) ys rows inc =
      (rows ++ List.take (m - rows.length) ys,
        inc || decide (m - rows.length < ys.length)) := by
  intro ys
  induction ys with
  | nil =>
      intro rows inc _
      simp [materializeLoop]
  | cons r rest ih =>
      intro rows inc hle
      have htr : jsNumTruthy (some m) = true := by
        simp only [jsNumTruthy, bne_iff_ne, ne_eq, decide_not]
        omega
      by_cases hlt : rows.length < m
      · have hlen : (rows ++ [r]).length ≤ m := by
          simp only [List.length_append, List.length_cons, List.length_nil]
          omega
        obtain ⟨k, hk⟩ : ∃ k, m - rows.length = k + 1 :=
          ⟨m - rows.length - 1, by omega⟩
        have hk2 : m - (rows ++ [r]).length = k := by
          simp only [List.length_append, List.length_cons, List.length_nil]
          omega
        have hdec : decide (k < rest.length) = decide (k + 1 < rest.length + 1) := by
          rw [decide_eq_decide]
          omega
        simp only [materializeLoop, htr, Bool.and_self, Option.getD_some]
        rw [if_pos hlt, ih (rows ++ [r]) inc hlen, hk, hk2, List.take_succ_cons]
        simp [List.append_assoc, List.length_cons, hdec]
      · simp only [materializeLoop, htr, Bool.and_self, Option.getD_some]
        rw [if_neg hlt, ih rows true hle]
        have h0 : m - rows.length = 0 := by omega
        rw [h0]
        simp [Nat.succ_pos]

/-- The materializer started empty under an active, positive cap `m` returns
the first `m` yielded rows and reports incompleteness exactly when more than
`m` rows were yielded. -/
theorem materialize_take (m : Nat) (hm : 0 < m) (ys : List Row) :
    materializeLoop true (some m) ys [] false =
      (List.take m ys, decide (m < ys.length)) := by
  have := materializeLoop_capped m hm ys [] false (by simp)
  simpa using this

/-! ## Claims -/

/-- C1: for an executed row-returning query with a resolved cap `m > 0` that
does not match the introspection exemption, `Client.runQuery` returns the
first `m` driver-yielded rows in yield order, with `incomplete = true`
exactly when the driver yielded more than `m` rows; with `m` or fewer
yielded rows, all of them are returned and `incomplete = false`. -/
theorem runQuery_bounded_materialization
    (limitFn : String → List String → JsNum → String)
    (qFn : Nat → String → Except JsError (Option DriverResult))
    (conn : ConnectionDescriptor) (query : String) (h : Nat)
    (cols : List String) (ys : List Row) (m : Nat)
    (hexempt : strIncludes query sysAllColumnsPath = false)
    (hres : resolvePositiveNumber conn.maxrows_override conn.maxRows = some m)
    (hm : 0 < m)
    (hcols : cols ≠ [])
    (hdrv : qFn h (cleanedQueryFor limitFn ["fetch"] query (some m)) =
      Except.ok (some { columns := some cols, resultRows := ys })) :
    Client.runQuery limitFn qFn { connection := conn, client := some h } query =
      Except.ok { rows := List.take m ys,
                  incomplete := some (decide (m < ys.length)) } ∧
    (m < ys.length → (List.take m ys).length = m) ∧
    (ys.length ≤ m → List.take m ys = ys ∧ decide (m < ys.length) = false) := by
  refine ⟨?_, ?_, ?_⟩
  · have hcb : (cols.length == 0) = false := by
      simp [List.length_eq_zero, hcols]
    have hpos : 0 < cols.length := List.length_pos.mpr hcols
    simp only [Client.runQuery, cleanFetch, hres, checkMaxRowsFor, hexempt,
      Bool.not_false, hdrv, handleQueryResult, hcb, hpos, if_true,
      materialize_take m hm ys, Bool.false_eq_true, if_false]
  · intro hlt
    simp only [List.length_take]
    omega
  · intro hle
    exact ⟨List.take_of_length_le hle, by simp; omega⟩

/-- Closed instance of C1: the spec scenario — five yielded rows, cap 2 —
returns the first two rows with `incomplete = true`. -/
theorem runQuery_bounded_materialization_witness :
    Client.runQuery wLimit wQueryFn
        { connection := wConn, client := some 7 } "SELECT * FROM T" =
      Except.ok { rows := List.take 2 wRows,
                  incomplete := some (decide (2 < wRows.length)) } ∧
    (2 < wRows.length → (List.take 2 wRows).length = 2) ∧
    (wRows.length ≤ 2 → List.take 2 wRows = wRows ∧
      decide (2 < wRows.length) = false) :=
  runQuery_bounded_materialization wLimit wQueryFn wConn "SELECT * FROM T" 7
    ["a"] wRows 2 rfl rfl (by decide) (by decide) rfl

/-- C2: once the top-level `runQuery` has successfully connected, disconnect
runs on every exit path: the final client state is closed both when the
query succeeds and when it raises, and the primary result or error of
`Client.runQuery` is returned or rethrown unchanged. -/
theorem runQueryTop_always_disconnects
    (limitFn : String → List String → JsNum → String)
    (connectFn : String → Except JsError Nat)
    (qFn : Nat → String → Except JsError (Option DriverResult))
    (closeFn : Nat → Except JsError Unit)
    (dp : String) (query : String) (conn : ConnectionDescriptor) (h : Nat)
    (hconn : connectFn (buildConnString dp conn) = Except.ok h) :
    (runQueryTop limitFn connectFn qFn closeFn dp query conn).2.client = none ∧
    (runQueryTop limitFn connectFn qFn closeFn dp query conn).1 =
      Client.runQuery limitFn qFn
        { connection := conn, client := some h } query := by
  have hc : Client.connect connectFn dp { connection := conn, client := none } =
      Except.ok { connection := conn, client := some h } := by
    simp [Client.connect, hconn]
  have hd : (Client.disconnect closeFn
      { connection := conn, client := some h }).1.client = none := by
    rcases h2 : closeFn h with e2 | u <;> simp [Client.disconnect, h2]
  rcases hq : Client.runQuery limitFn qFn
      { connection := conn, client := some h } query with e | r
  · exact ⟨by simp [runQueryTop, hc, hq, hd], by simp [runQueryTop, hc, hq]⟩
  · exact ⟨by simp [runQueryTop, hc, hq, hd], by simp [runQueryTop, hc, hq]⟩

/-- Closed instance of C2: with a succeeding dial, the top-level run leaves
the client closed and returns the query outcome. -/
theorem runQueryTop_always_disconnects_witness :
    (runQueryTop wLimit wConnectOk wQueryFn wCloseOk "DP" "SELECT * FROM T"
        wConn).2.client = none ∧
    (runQueryTop wLimit wConnectOk wQueryFn wCloseOk "DP" "SELECT * FROM T"
        wConn).1 =
      Client.runQuery wLimit wQueryFn
        { connection := wConn, client := some 7 } "SELECT * FROM T" :=
  runQueryTop_always_disconnects wLimit wConnectOk wQueryFn wCloseOk "DP"
    "SELECT * FROM T" wConn 7 rfl

/-- C3 counterexample: a first connect hands out a handle; after a
disconnect, a second `connect` on the same instance succeeds rather than
failing with the usage error — refuting "connecting a second time always
fails regardless of state". -/
theorem connect_twice_counterexample :
    Client.connect wConnectOk "DP" { connection := wConn, client := none } =
      Except.ok { connection := wConn, client := some 7 } ∧
    Client.connect wConnectOk "DP"
        (Client.disconnect wCloseOk
          { connection := wConn, client := some 7 }).1 =
      Except.ok { connection := wConn, client := some 7 } ∧
    (Except.ok { connection := wConn, client := some 7 } :
        Except JsError Client) ≠
      Except.error (JsError.err "Client already connected" none) :=
  ⟨rfl, rfl, by simp⟩

/-- C3 amended: a second `connect` fails with the usage error exactly when
the instance currently holds a live handle; with the handle field `null`
(never connected, after a failed connect, or after a disconnect) `connect`
proceeds, and succeeds whenever the underlying dial succeeds. -/
theorem connect_usage_error_iff_live_handle
    (connectFn : String → Except JsError Nat) (dp : String) (c : Client) :
    (∀ h, c.client = some h →
      Client.connect connectFn dp c =
        Except.error (JsError.err "Client already connected" none)) ∧
    (c.client = none → ∀ h,
      connectFn (buildConnString dp c.connection) = Except.ok h →
      Client.connect connectFn dp c =
        Except.ok { c with client := some h }) := by
  constructor
  · intro h hc
    simp [Client.connect, hc]
  · intro hc h hok
    simp [Client.connect, hc, hok]

/-- Closed instance of the amended C3: the usage error fires on a live
handle, and a fresh connect on a closed instance succeeds. -/
theorem connect_usage_error_iff_live_handle_witness :
    Client.connect wConnectOk "DP" { connection := wConn, client := some 3 } =
      Except.error (JsError.err "Client already connected" none) ∧
    Client.connect wConnectOk "DP" { connection := wConn, client := none } =
      Except.ok { connection := wConn, client := some 7 } :=
  ⟨(connect_usage_error_iff_live_handle wConnectOk "DP"
      { connection := wConn, client := some 3 }).1 3 rfl,
   (connect_usage_error_iff_live_handle wConnectOk "DP"
      { connection := wConn, client := none }).2 rfl 7 rfl⟩

/-- C4: when the underlying connect call fails with an error carrying a
structured sub-error array, `Client.connect` raises an error whose message
is exactly the first sub-error's message, discarding the others; a failure
without that payload is re-raised unchanged. -/
theorem connect_error_normalization
    (connectFn : String → Except JsError Nat) (dp : String) (c : Client)
    (hnc : c.client = none) :
    (∀ msg first rest,
      connectFn (buildConnString dp c.connection) =
        Except.error (JsError.err msg (some (first :: rest))) →
      Client.connect connectFn dp c =
        Except.error (JsError.err first none)) ∧
    (∀ e, connectFn (buildConnString dp c.connection) = Except.error e →
      JsError.odbcPayload e = none →
      Client.connect connectFn dp c = Except.error e) := by
  constructor
  · intro msg first rest hfail
    simp [Client.connect, hnc, hfail, connectErrorTransform]
  · intro e hfail hpay
    have ht : connectErrorTransform e = e := by
      cases e with
      | err m p =>
          cases p with
          | none => rfl
          | some l => simp [JsError.odbcPayload] at hpay
      | typeErrorUndefined => rfl
    simp [Client.connect, hnc, hfail, ht]

/-- Closed instance of C4: the spec scenario — the two-message payload
surfaces only `"auth failed"`; a plain failure is re-raised unchanged. -/
theorem connect_error_normalization_witness :
    Client.connect wConnectMulti "DP" { connection := wConn, client := none } =
      Except.error (JsError.err "auth failed" none) ∧
    Client.connect wConnectPlain "DP" { connection := wConn, client := none } =
      Except.error (JsError.err "plain failure" none) :=
  ⟨(connect_error_normalization wConnectMulti "DP"
        { connection := wConn, client := none } rfl).1
      "outer" "auth failed" ["retry later"] rfl,
   (connect_error_normalization wConnectPlain "DP"
        { connection := wConn, client := none } rfl).2
      (JsError.err "plain failure" none) rfl rfl⟩

/-- C5: when query execution fails with an error carrying a structured
sub-error array, `Client.runQuery` raises a single error whose message joins
the sub-error messages with `"; "` in order; a failure without that payload
is re-raised unchanged. -/
theorem runQuery_error_normalization
    (limitFn : String → List String → JsNum → String)
    (qFn : Nat → String → Except JsError (Option DriverResult))
    (conn : ConnectionDescriptor) (query : String) (h : Nat) :
    (∀ msg msgs,
      qFn h (cleanedQueryFor limitFn ["fetch"] query
          (resolvePositiveNumber conn.maxrows_override conn.maxRows)) =
        Except.error (JsError.err msg (some msgs)) →
      Client.runQuery limitFn qFn
          { connection := conn, client := some h } query =
        Except.error (JsError.err (String.intercalate "; " msgs) none)) ∧
    (∀ e,
      qFn h (cleanedQueryFor limitFn ["fetch"] query
          (resolvePositiveNumber conn.maxrows_override conn.maxRows)) =
        Except.error e →
      JsError.odbcPayload e = none →
      Client.runQuery limitFn qFn
          { connection := conn, client := some h } query =
        Except.error e) := by
  constructor
  · intro msg msgs hfail
    simp [Client.runQuery, cleanFetch, hfail, queryErrorTransform]
  · intro e hfail hpay
    have ht : queryErrorTransform e = e := by
      cases e with
      | err m p =>
          cases p with
          | none => rfl
          | some l => simp [JsError.odbcPayload] at hpay
      | typeErrorUndefined => rfl
    simp [Client.runQuery, cleanFetch, hfail, ht]

/-- Closed instance of C5: the spec scenario — the two-message payload joins
to `"auth failed; retry later"`; a plain failure is re-raised unchanged. -/
theorem runQuery_error_normalization_witness :
    Client.runQuery wLimit wQueryMulti
        { connection := wConn, client := some 7 } "SELECT * FROM T" =
      Except.error (JsError.err "auth failed; retry later" none) ∧
    Client.runQuery wLimit wQueryPlain
        { connection := wConn, client := some 7 } "SELECT * FROM T" =
      Except.error (JsError.err "plain failure" none) :=
  ⟨(runQuery_error_normalization wLimit wQueryMulti wConn "SELECT * FROM T"
        7).1 "outer" ["auth failed", "retry later"] rfl,
   (runQuery_error_normalization wLimit wQueryPlain wConn "SELECT * FROM T"
        7).2 (JsError.err "plain failure" none) rfl rfl⟩

/-- C6: a query containing the system catalog path is never rewritten — the
rewriting stage returns it unmodified for every limiter and every cap — even
though the strategy list in effect, the validated `["fetch"]`, is
non-empty. -/
theorem exempt_query_not_rewritten
    (limitFn : String → List String → JsNum → String)
    (maxRows : Option Nat) (query : String)
    (hq : strIncludes query sysAllColumnsPath = true) :
    cleanedQueryFor limitFn ["fetch"] query maxRows = query ∧
    cleanAndValidateLimitStrategies "fetch" = Except.ok ["fetch"] ∧
    (["fetch"] : List String).length ≠ 0 := by
  refine ⟨?_, cleanFetch, by simp⟩
  simp [cleanedQueryFor, checkMaxRowsFor, hq]

/-- Closed instance of C6: an introspection-style query over the exempted
catalog path passes through the rewriting stage unchanged. -/
theorem exempt_query_not_rewritten_witness :
    cleanedQueryFor wLimit ["fetch"]
        "SELECT schema_name FROM /services/databases/system/ALL_COLUMNS"
        (some 100) =
      "SELECT schema_name FROM /services/databases/system/ALL_COLUMNS" ∧
    cleanAndValidateLimitStrategies "fetch" = Except.ok ["fetch"] ∧
    (["fetch"] : List String).length ≠ 0 :=
  exempt_query_not_rewritten wLimit (some 100)
    "SELECT schema_name FROM /services/databases/system/ALL_COLUMNS" rfl

/-- C7: when the driver result lacks column metadata — missing result
object, missing `columns`, or zero columns — `Client.runQuery` succeeds with
an empty row sequence and no `incomplete` flag, which a caller observes as
`incomplete = false`. -/
theorem no_columns_degraded_result
    (limitFn : String → List String → JsNum → String)
    (qFn : Nat → String → Except JsError (Option DriverResult))
    (conn : ConnectionDescriptor) (query : String) (h : Nat)
    (qres : Option DriverResult)
    (hdrv : qFn h (cleanedQueryFor limitFn ["fetch"] query
        (resolvePositiveNumber conn.maxrows_override conn.maxRows)) =
      Except.ok qres)
    (hnone : qres = none ∨
      (∃ ys, qres = some { columns := none, resultRows := ys }) ∨
      (∃ ys, qres = some { columns := some [], resultRows := ys })) :
    Client.runQuery limitFn qFn
        { connection := conn, client := some h } query =
      Except.ok { rows := [], incomplete := none } ∧
    QueryResult.incompleteTruthy { rows := [], incomplete := none } =
      false := by
  refine ⟨?_, rfl⟩
  rcases hnone with hn | ⟨ys, hn⟩ | ⟨ys, hn⟩ <;>
    subst hn <;>
    simp [Client.runQuery, cleanFetch, hdrv, handleQueryResult]

/-- Closed instance of C7: a driver that returns no result object yields the
degraded empty result, observed as not incomplete. -/
theorem no_columns_degraded_result_witness :
    Client.runQuery wLimit wQueryNoCols
        { connection := wConn, client := some 7 } "UPDATE T SET x = 1" =
      Except.ok { rows := [], incomplete := none } ∧
    QueryResult.incompleteTruthy { rows := [], incomplete := none } =
      false :=
  no_columns_degraded_result wLimit wQueryNoCols wConn "UPDATE T SET x = 1" 7
    none rfl (Or.inl rfl)

/-- C8: for a non-exempt query the rewriter is invoked with the cap
`maxRows + 1` under JS arithmetic — `m + 1` when a positive `m` resolved
(never `m` itself), and `NaN` (the value of `undefined + 1`) when no
positive cap resolves. -/
theorem limiter_cap_over_ask
    (limitFn : String → List String → JsNum → String)
    (query : String) (mro mr : Option Nat)
    (hq : strIncludes query sysAllColumnsPath = false) :
    cleanedQueryFor limitFn ["fetch"] query (resolvePositiveNumber mro mr) =
      limitFn query ["fetch"] (limiterCap (resolvePositiveNumber mro mr)) ∧
    (∀ m, resolvePositiveNumber mro mr = some m →
      limiterCap (resolvePositiveNumber mro mr) = JsNum.num (m + 1) ∧
      JsNum.num (m + 1) ≠ JsNum.num m) ∧
    (resolvePositiveNumber mro mr = none →
      limiterCap (resolvePositiveNumber mro mr) = JsNum.nan) := by
  refine ⟨?_, ?_, ?_⟩
  · simp [cleanedQueryFor, checkMaxRowsFor, hq]
  · intro m hm
    rw [hm]
    exact ⟨rfl, by simp⟩
  · intro hm
    rw [hm]
    rfl

/-- Closed instance of C8: with override 2 the limiter cap is 3, not 2; with
nothing resolving, the cap is `NaN`. -/
theorem limiter_cap_over_ask_witness :
    (cleanedQueryFor wLimit ["fetch"] "SELECT * FROM T"
        (resolvePositiveNumber (some 2) none) =
      wLimit "SELECT * FROM T" ["fetch"]
        (limiterCap (resolvePositiveNumber (some 2) none)) ∧
    (∀ m, resolvePositiveNumber (some 2) none = some m →
      limiterCap (resolvePositiveNumber (some 2) none) = JsNum.num (m + 1) ∧
      JsNum.num (m + 1) ≠ JsNum.num m) ∧
    (resolvePositiveNumber (some 2) none = none →
      limiterCap (resolvePositiveNumber (some 2) none) = JsNum.nan)) ∧
    limiterCap (resolvePositiveNumber none none) = JsNum.nan :=
  ⟨limiter_cap_over_ask wLimit "SELECT * FROM T" (some 2) none rfl,
   (limiter_cap_over_ask wLimit "SELECT * FROM T" none none rfl).2.2 rfl⟩

/-- C9: `Client.disconnect` never raises in any state: it always leaves the
handle field `null`; a close failure only surfaces as the logged diagnostic
while the state still closes; a repeated disconnect is idempotent and logs
nothing; disconnecting a never-connected instance logs nothing. -/
theorem disconnect_never_raises
    (closeFn : Nat → Except JsError Unit) (c : Client) :
    (Client.disconnect closeFn c).1.client = none ∧
    (∀ h e, c.client = some h → closeFn h = Except.error e →
      Client.disconnect closeFn c = ({ c with client := none }, some e)) ∧
    (Client.disconnect closeFn (Client.disconnect closeFn c).1 =
      ((Client.disconnect closeFn c).1, none)) ∧
    (c.client = none →
      Client.disconnect closeFn c = ({ c with client := none }, none)) := by
  obtain ⟨conn, cl⟩ := c
  cases cl with
  | none =>
      refine ⟨rfl, ?_, rfl, fun _ => rfl⟩
      intro h e hcontra
      cases hcontra
  | some h =>
      rcases hcf : closeFn h with e2 | u
      · refine ⟨?_, ?_, ?_, ?_⟩
        · simp [Client.disconnect, hcf]
        · intro h2 e hs he
          obtain rfl : h = h2 := by cases hs; rfl
          rw [hcf] at he
          obtain rfl : e2 = e := by cases he; rfl
          simp [Client.disconnect, hcf]
        · simp [Client.disconnect, hcf]
        · intro hcontra
          cases hcontra
      · refine ⟨?_, ?_, ?_, ?_⟩
        · simp [Client.disconnect, hcf]
        · intro h2 e hs he
          obtain rfl : h = h2 := by cases hs; rfl
          rw [hcf] at he
          cases he
        · simp [Client.disconnect, hcf]
        · intro hcontra
          cases hcontra

/-- Closed instance of C9: a failing close is swallowed into the diagnostic
while the state closes, and a second disconnect is a clean no-op. -/
theorem disconnect_never_raises_witness :
    (Client.disconnect wCloseBad
      { connection := wConn, client := some 7 }).1.client = none ∧
    Client.disconnect wCloseBad { connection := wConn, client := some 7 } =
      ({ connection := wConn, client := none },
        some (JsError.err "close failed" none)) ∧
    Client.disconnect wCloseBad
        (Client.disconnect wCloseBad
          { connection := wConn, client := some 7 }).1 =
      ((Client.disconnect wCloseBad
          { connection := wConn, client := some 7 }).1, none) :=
  ⟨(disconnect_never_raises wCloseBad
      { connection := wConn, client := some 7 }).1,
   (disconnect_never_raises wCloseBad
      { connection := wConn, client := some 7 }).2.1 7
      (JsError.err "close failed" none) rfl rfl,
   (disconnect_never_raises wCloseBad
      { connection := wConn, client := some 7 }).2.2.1⟩

/-- C10 counterexample: a descriptor with no port still yields a connection
string containing `port=9401` — the code invents a default port, refuting
"no other descriptor field (in particular, an absent port) receives an
invented default value". -/
theorem port_default_counterexample :
    ({ database := some "db1" } : ConnectionDescriptor).port = none ∧
    buildConnString "DP" { database := some "db1" } =
      "Driver=DP;host=localhost;port=9401;datasource=db1;domain=composite" ∧
    strIncludes (buildConnString "DP" { database := some "db1" })
      "port=9401" = true :=
  ⟨rfl, rfl, rfl⟩

/-- C10 amended: the defaults applied when building the connection string
are host = `localhost`, domain = `composite`, and additionally
port = `9401`, whenever those fields are absent (or empty); credentials are
appended only when username and password are present. -/
theorem conn_string_defaults (dp : String) (c : ConnectionDescriptor) :
    buildConnString dp { c with host := none, port := none, domain := none } =
      buildConnString dp
        { c with host := some "localhost", port := some "9401",
                 domain := some "composite" } ∧
    (c.username = none → c.password = none →
      buildConnString dp c =
        getConnection_string dp (jsStr c.database)
          (jsOrStr c.host "localhost") (jsOrStr c.port "9401")
          (jsOrStr c.domain "composite")) := by
  constructor
  · rfl
  · intro hu hp
    simp [buildConnString, hu, hp, jsStrTruthy]

/-- Closed instance of the amended C10: absent host, port and domain behave
exactly like the explicit defaults, and without credentials the string is
the bare `getConnection_string` output. -/
theorem conn_string_defaults_witness :
    buildConnString "DP"
        { ({ database := some "db1" } : ConnectionDescriptor) with
            host := none, port := none, domain := none } =
      buildConnString "DP"
        { ({ database := some "db1" } : ConnectionDescriptor) with
            host := some "localhost", port := some "9401",
            domain := some "composite" } ∧
    buildConnString "DP" { database := some "db1" } =
      getConnection_string "DP" (jsStr (some "db1"))
        (jsOrStr none "localhost") (jsOrStr none "9401")
        (jsOrStr none "composite") :=
  ⟨(conn_string_defaults "DP" { database := some "db1" }).1,
   (conn_string_defaults "DP" { database := some "db1" }).2 rfl rfl⟩

end Tdv
